import Mathlib

/-!
Verification of the swarm RabbitMQ broker-integration layer.

Shallow embedding of `src/swarm/coreq.py` (class `SwarmRabbitMQ`),
`src/swarm/handler.py` (class `RabbitMQHandler`) and the consumer retry
loop of `src/test2.py` (`start_consumer_for_agent`).

Modelling conventions:
- The broker is an oracle (`Broker`) giving the outcome of each network
  operation: connection liveness (the result of `verify_connection`),
  passive queue declaration (`queue_exists`), active declaration
  (`declare_ok`), binding (`bind_ok`) and the verification re-declare
  (`verify_ok`), each keyed by queue name.
- Python exceptions are modelled by `Option`: `none` is an exception
  escaping the modelled function; operations whose exceptions are caught
  inside the source function are total.
- `json.dumps` payloads are modelled as a JSON value tree `JValue`;
  Python's `float("inf")` serializes to the token `Infinity`, which is
  not part of standard JSON, and is modelled by the constructor
  `JValue.inf`.
- The mutable `self.agent_queues` dict and `self.registered_agents` list
  are threaded explicitly as `SwarmState`; dict insertion appends at the
  end, as Python dicts preserve insertion order.
-/

namespace Swarm

/-- JSON-like value produced by `json.dumps` on the Python side.
`inf` stands for the serialization of `float("inf")`: `json.dumps`
emits the token `Infinity` for it, which standard JSON parsers reject. -/
inductive JValue where
  | null
  | bool (b : Bool)
  | num (n : Int)
  | inf
  | str (s : String)
  | arr (elems : List JValue)
  | obj (fields : List (String × JValue))

mutual

/-- True iff the value is strict standard JSON: it contains no
`Infinity` (or other non-JSON) token anywhere. -/
def noInf : JValue → Bool
  | .null => true
  | .bool _ => true
  | .num _ => true
  | .inf => false
  | .str _ => true
  | .arr elems => noInfArr elems
  | .obj fields => noInfObj fields

/-- `noInf` on every element of a JSON array. -/
def noInfArr : List JValue → Bool
  | [] => true
  | v :: vs => noInf v && noInfArr vs

/-- `noInf` on every field value of a JSON object. -/
def noInfObj : List (String × JValue) → Bool
  | [] => true
  | (_, v) :: fs => noInf v && noInfObj fs

end

/-- An agent identity. Modelled from the spec: the class `Agent` lives in
`swarm/types.py`, which is not under `src/`; per the spec (section 3) the
core uses only its unique human-readable `name`, role/instructions being
opaque. -/
structure Agent where
  name : String
deriving DecidableEq

/-- One conversation message, a Python `Dict[str, str]`
(role/content pairs). -/
abbrev Msg := List (String × String)

/-- The per-agent entry recorded in `self.agent_queues`
(coreq.py lines 112-116). -/
structure QueueInfo where
  queue_name : String
  routing_key : String
  created_at : String
deriving DecidableEq

/-- The mutable registry state of a `SwarmRabbitMQ` instance:
`self.agent_queues` (dict, modelled as an insertion-ordered association
list keyed by agent name) and `self.registered_agents`
(coreq.py lines 40-41). -/
structure SwarmState where
  agent_queues : List (String × QueueInfo)
  registered_agents : List Agent

/-- Oracle for the outcomes of broker-side operations.
`connected` is the result of `verify_connection` (coreq.py lines 173-227,
including its internal reconnection attempts); the other fields give,
per queue name, whether the corresponding channel operation succeeds. -/
structure Broker where
  connected : Bool
  queue_exists : String → Bool
  declare_ok : String → Bool
  bind_ok : String → Bool
  verify_ok : String → Bool

/-- A channel operation performed against the broker during queue
provisioning. -/
inductive BrokerOp where
  | queueDeclarePassive (queue : String)
  | queueDeclare (queue : String) (durable : Bool) (message_ttl : Nat)
  | queueBind (exchange : String) (queue : String) (routing_key : String)
deriving DecidableEq

/-- The slug of an agent name: `agent.name.lower().replace(' ', '_')`
(coreq.py lines 69-70). Python's `str.lower` is applied characterwise
(ASCII case mapping suffices for the names used here) and the
replacement pattern is the single character U+0020, so the combination
is a characterwise map over the string. -/
def slug (n : String) : String :=
  String.mk (n.data.map (fun c => if c.toLower = ' ' then '_' else c.toLower))

/-- `queue_name = f"agent_{agent.name.lower().replace(' ', '_')}_queue"`
(coreq.py line 69). -/
def queueName (n : String) : String :=
  "agent_" ++ slug n ++ "_queue"

/-- `routing_key = f"agent.{agent.name.lower().replace(' ', '_')}"`
(coreq.py line 70). -/
def routingKey (n : String) : String :=
  "agent." ++ slug n

/-- First-match lookup in the `agent_queues` association list, i.e.
Python dict access / the `in` test. -/
def lookupQ : List (String × QueueInfo) → String → Option QueueInfo
  | [], _ => none
  | (k, qi) :: rest, n => if k = n then some qi else lookupQ rest n

/-- The queue-provisioning block of `register_agent`
(coreq.py lines 72-107): passive declare to check existence; if that
raises, declare the queue durable with a 3600000 ms message TTL; bind it
to the exchange `"amq.topic"` under the routing key (line 96); verify
with a second passive declare. Returns the operations performed on
success, `none` if an exception escapes the block (which line 110
re-raises to the outer handler). -/
def setup_queue (b : Broker) (qn rk : String) : Option (List BrokerOp) :=
  match (if b.queue_exists qn then some [BrokerOp.queueDeclarePassive qn]
         else if b.declare_ok qn then
           some [BrokerOp.queueDeclarePassive qn, BrokerOp.queueDeclare qn true 3600000]
         else none) with
  | none => none
  | some ops =>
    if b.bind_ok qn then
      if b.verify_ok qn then
        some (ops ++ [BrokerOp.queueBind "amq.topic" qn rk, BrokerOp.queueDeclarePassive qn])
      else none
    else none

/-- `SwarmRabbitMQ.register_agent` (coreq.py lines 48-122). The outer
`try` catches every exception (ConnectionError when the connection is
unavailable, any queue setup failure) and returns `False`; on success the
binding and the agent are appended to the registry and it returns
`True`. `now` is `datetime.datetime.now().isoformat()`. -/
def register_agent (b : Broker) (now : String) (st : SwarmState) (a : Agent) :
    Bool × SwarmState :=
  if b.connected then
    match lookupQ st.agent_queues a.name with
    | some _ => (false, st)
    | none =>
      match setup_queue b (queueName a.name) (routingKey a.name) with
      | some _ =>
        (true,
         { agent_queues :=
             st.agent_queues ++ [(a.name, ⟨queueName a.name, routingKey a.name, now⟩)],
           registered_agents := st.registered_agents ++ [a] })
      | none => (false, st)
  else (false, st)

/-- `SwarmRabbitMQ.register_agents` (coreq.py lines 124-134): registers
each agent in turn, collecting those for which `register_agent` returned
`True`. -/
def register_agents (b : Broker) (now : String) :
    SwarmState → List Agent → List Agent × SwarmState
  | st, [] => ([], st)
  | st, a :: rest =>
    match register_agent b now st a with
    | (ok, st1) =>
      match register_agents b now st1 rest with
      | (regs, st2) => ((if ok then a :: regs else regs), st2)

/-- One publication performed by `RabbitMQHandler.publish_message`
(handler.py lines 45-59): `basic_publish` with the recorded exchange,
routing key, JSON body and `delivery_mode=2` (persistent). -/
structure Publish where
  exchange : String
  routing_key : String
  body : JValue
  persistent : Bool

/-- `RabbitMQHandler.publish_message` (handler.py lines 45-59): publishes
the `json.dumps`-serialized message to the exchange `"agent_exchange"`
(line 50) under the given routing key with persistent delivery mode. -/
def publish_message (rk : String) (message : JValue) : Publish :=
  ⟨"agent_exchange", rk, message, true⟩

/-- JSON serialization of a Python `List[Dict[str, str]]` message list. -/
def messagesJson (messages : List Msg) : JValue :=
  JValue.arr (messages.map (fun m => JValue.obj (m.map (fun p => (p.1, JValue.str p.2)))))

/-- The `initial_message` dispatch envelope built by `run`
(coreq.py lines 291-299). `max_turns` is a number, or `float("inf")` by
default (line 273), which `json.dumps` serializes as the non-JSON token
`Infinity`, modelled by `JValue.inf`. -/
def runEnvelope (messages : List Msg) (ctx : List (String × JValue))
    (model_override : Option String) (stream : Bool) (debug : Bool)
    (max_turns : Option Nat) (execute_tools : Bool) : JValue :=
  JValue.obj
    [("messages", messagesJson messages),
     ("context_variables", JValue.obj ctx),
     ("model", match model_override with | none => JValue.null | some m => JValue.str m),
     ("stream", JValue.bool stream),
     ("debug", JValue.bool debug),
     ("max_turns", match max_turns with | none => JValue.inf | some k => JValue.num k),
     ("execute_tools", JValue.bool execute_tools)]

/-- The `handoff_message` envelope built by `handoff_to_agent`
(coreq.py lines 245-249). -/
def handoffEnvelope (from_name : String) (messages : List Msg)
    (ctx : List (String × JValue)) : JValue :=
  JValue.obj
    [("from_agent", JValue.str from_name),
     ("messages", messagesJson messages),
     ("context_variables", JValue.obj ctx)]

/-- The value returned by `run`. Modelled from the spec: the class
`Response` lives in `swarm/types.py`, which is not under `src/`; its
fields are fixed by the constructor call at coreq.py lines 315-320 and
the spec's description of the returned "queued" acknowledgement. -/
structure Response where
  agent : Agent
  messages : List Msg
  context_variables : List (String × JValue)
  final_message : String

/-- `SwarmRabbitMQ.run` (coreq.py lines 265-320): defaults
`context_variables` to `{}`; registers the agent if not in
`agent_queues` (ignoring the returned boolean); looks up
`agent_queues[agent.name]["routing_key"]` — a `KeyError` (modelled by
the `none` result, with no publication) if registration failed; builds
the dispatch envelope, publishes it via `publish_message`, and returns
the `Response` with the input messages and the constant final message.
The result pairs the list of publications performed with either the
final state and response or `none` for an escaping exception. -/
def run (b : Broker) (now : String) (st : SwarmState) (a : Agent)
    (messages : List Msg) (context_variables : Option (List (String × JValue)))
    (model_override : Option String) (stream : Bool) (debug : Bool)
    (max_turns : Option Nat) (execute_tools : Bool) :
    List Publish × Option (SwarmState × Response) :=
  let ctx := context_variables.getD []
  let st1 :=
    match lookupQ st.agent_queues a.name with
    | none => (register_agent b now st a).2
    | some _ => st
  match lookupQ st1.agent_queues a.name with
  | none => ([], none)
  | some qi =>
    ([publish_message qi.routing_key
        (runEnvelope messages ctx model_override stream debug max_turns execute_tools)],
     some (st1, ⟨a, messages, ctx, "Message queued for processing"⟩))

/-- `SwarmRabbitMQ.handoff_to_agent` (coreq.py lines 229-263): if the
recipient is not in `agent_queues`, calls `register_agent` (ignoring its
boolean result); then reads `agent_queues[to_agent.name]["routing_key"]`
— a `KeyError` (modelled by the `none` result, with the empty
publication list since the publish on line 258 is never reached) if the
recipient is still unregistered; otherwise builds the handoff envelope
and publishes it. -/
def handoff_to_agent (b : Broker) (now : String) (st : SwarmState)
    (from_agent to_agent : Agent) (messages : List Msg)
    (ctx : List (String × JValue)) : List Publish × Option SwarmState :=
  let st1 :=
    match lookupQ st.agent_queues to_agent.name with
    | none => (register_agent b now st to_agent).2
    | some _ => st
  match lookupQ st1.agent_queues to_agent.name with
  | none => ([], none)
  | some qi =>
    ([publish_message qi.routing_key (handoffEnvelope from_agent.name messages ctx)],
     some st1)

/-- Outcome of the per-delivery callback: `basic_ack`, or
`basic_nack` with its `requeue` flag. -/
inductive Ack where
  | ack
  | nack (requeue : Bool)
deriving DecidableEq

/-- The `default_callback` closure inside `start_consuming`
(coreq.py lines 351-369): `json.loads` the body (`decode`, which may
fail), invoke the externally supplied callback if one was given (its
`none` result models a raised exception), then `basic_ack`; any
exception in the `try` block leads to `basic_nack(requeue=True)`. -/
def default_callback (decode : String → Option JValue)
    (callback : Option (JValue → Option Unit)) (body : String) : Ack :=
  match decode body with
  | none => Ack.nack true
  | some message =>
    match callback with
    | none => Ack.ack
    | some cb =>
      match cb message with
      | none => Ack.nack true
      | some _ => Ack.ack

/-- `max_retries` of the consumer retry loop (test2.py line 28). -/
def max_retries : Nat := 3

/-- The body of the `while retry_count < max_retries` loop of
`start_consumer_for_agent` (test2.py lines 31-48), with
`fuel = max_retries - retry_count` as the structural measure (the only
back edge increments `retry_count` by one and requires the incremented
count to stay below `max_retries`). `fails n` tells whether the n-th
call (0-based) to `start_consuming` raises. Returns the number of
consume attempts made and the list of waits slept (each
`retry_count * 5` time units, test2.py line 41). -/
def consumerGo (fails : Nat → Bool) :
    Nat → Nat → Nat → List Nat → Nat × List Nat
  | 0, attempts, _, waits => (attempts, waits)
  | fuel + 1, attempts, retry_count, waits =>
    if fails attempts then
      if retry_count + 1 < max_retries then
        consumerGo fails fuel (attempts + 1)
          (retry_count + 1) (waits ++ [(retry_count + 1) * 5])
      else (attempts + 1, waits)
    else (attempts + 1, waits)

/-- `start_consumer_for_agent` of test2.py (lines 26-48): run the retry
loop from `retry_count = 0`; the function always returns control to its
caller (every exception from `start_consuming` is caught inside the
loop). -/
def start_consumer_for_agent (fails : Nat → Bool) : Nat × List Nat :=
  consumerGo fails max_retries 0 0 []

/-! Concrete fixtures used to evaluate the model. -/

/-- A broker on which every operation succeeds (queues do not yet
exist, so active declaration is exercised). -/
def bAllOk : Broker :=
  { connected := true, queue_exists := fun _ => false, declare_ok := fun _ => true,
    bind_ok := fun _ => true, verify_ok := fun _ => true }

/-- An unreachable broker: `verify_connection` reports failure. -/
def bDown : Broker :=
  { connected := false, queue_exists := fun _ => false, declare_ok := fun _ => false,
    bind_ok := fun _ => false, verify_ok := fun _ => false }

/-- A connected broker on which provisioning fails exactly for agent B's
queue (its active declaration raises). -/
def bFailB : Broker :=
  { connected := true, queue_exists := fun _ => false,
    declare_ok := fun q => if q = "agent_b_queue" then false else true,
    bind_ok := fun _ => true, verify_ok := fun _ => true }

/-- The initial registry state of a fresh `SwarmRabbitMQ` instance. -/
def st0 : SwarmState := ⟨[], []⟩

/-- Test agent A. -/
def agA : Agent := ⟨"A"⟩

/-- Test agent B. -/
def agB : Agent := ⟨"B"⟩

/-- Test agent C. -/
def agC : Agent := ⟨"C"⟩

/-! Helper lemmas about the registry. -/

/-- The registry state after a successful registration of `a` at time
`now`: the binding and the agent are appended (coreq.py
lines 112-117). -/
def regSucc (st : SwarmState) (a : Agent) (now : String) : SwarmState :=
  { agent_queues :=
      st.agent_queues ++ [(a.name, ⟨queueName a.name, routingKey a.name, now⟩)],
    registered_agents := st.registered_agents ++ [a] }

theorem lookupQ_append_self (l : List (String × QueueInfo)) (n : String) (v : QueueInfo)
    (h : lookupQ l n = none) : lookupQ (l ++ [(n, v)]) n = some v := by
  induction l with
  | nil => simp [lookupQ]
  | cons p rest ih =>
    obtain ⟨k, qi⟩ := p
    by_cases hk : k = n
    · simp [lookupQ, hk] at h
    · simp only [lookupQ, hk, if_false, List.cons_append] at h ⊢
      exact ih h

theorem register_agent_fail_snd (b : Broker) (now : String) (st : SwarmState) (a : Agent)
    (h : (register_agent b now st a).1 = false) : (register_agent b now st a).2 = st := by
  unfold register_agent at h ⊢
  cases hb : b.connected with
  | false => simp [hb]
  | true =>
    simp only [hb, if_true] at h ⊢
    cases hl : lookupQ st.agent_queues a.name with
    | some qi => simp [hl]
    | none =>
      cases hs : setup_queue b (queueName a.name) (routingKey a.name) with
      | some ops => simp [hl, hs] at h
      | none => simp [hl, hs]

theorem register_agent_success (b : Broker) (now : String) (st : SwarmState) (a : Agent)
    (hb : b.connected = true) (hl : lookupQ st.agent_queues a.name = none)
    (hs : (setup_queue b (queueName a.name) (routingKey a.name)).isSome = true) :
    register_agent b now st a = (true, regSucc st a now) := by
  obtain ⟨ops, hops⟩ := Option.isSome_iff_exists.mp hs
  unfold register_agent
  simp [hb, hl, hops, regSucc]

/-! Claim theorems. -/

/-- C1: refuted on the code — the claim says the exchange an agent's
queue is bound to equals the exchange `publish_message` publishes to.
Evaluated at the failing input (agent name "Agent A", all broker
operations succeeding): `register_agent`'s provisioning binds the queue
to the exchange `"amq.topic"` (coreq.py line 96) while `publish_message`
publishes every envelope to the exchange `"agent_exchange"`
(handler.py line 50), and the two names differ, so a published envelope
is never routed to the registered queue. -/
theorem exchange_mismatch_register_vs_publish :
    setup_queue bAllOk (queueName ("Agent A")) (routingKey ("Agent A")) =
      some [BrokerOp.queueDeclarePassive ("agent_agent_a_queue"),
            BrokerOp.queueDeclare ("agent_agent_a_queue") true 3600000,
            BrokerOp.queueBind ("amq.topic") ("agent_agent_a_queue") ("agent.agent_a"),
            BrokerOp.queueDeclarePassive ("agent_agent_a_queue")] ∧
    (publish_message (routingKey ("Agent A")) (JValue.obj [])).exchange = "agent_exchange" ∧
    ("amq.topic" : String) ≠ "agent_exchange" :=
  ⟨rfl, rfl, by decide⟩

/-- C8: for every broker, time, state and agent, if the connection is
unavailable or any provisioning step (queue declare, bind, or the
verifying re-declare) fails, `register_agent` returns `false` with the
registry state unchanged — no binding is recorded and no exception
escapes (the function is total; the outer `try` of coreq.py
lines 54-122 converts every failure into the boolean). -/
theorem register_agent_failure_returns_false_state_unchanged
    (b : Broker) (now : String) (st : SwarmState) (a : Agent)
    (h : b.connected = false ∨
         setup_queue b (queueName a.name) (routingKey a.name) = none) :
    register_agent b now st a = (false, st) := by
  unfold register_agent
  rcases h with hc | hs
  · simp [hc]
  · cases hb : b.connected with
    | false => simp
    | true =>
      cases hl : lookupQ st.agent_queues a.name with
      | some qi => simp [hl]
      | none => simp [hl, hs]

/-- Witness for C8: a concrete run against the unreachable broker
returns `false` and leaves the fresh registry unchanged. -/
theorem register_agent_failure_returns_false_state_unchanged_witness :
    register_agent bDown ("t0") st0 agA = (false, st0) :=
  register_agent_failure_returns_false_state_unchanged bDown ("t0") st0 agA
    (Or.inl rfl)

/-- C10: if the recipient of a handoff is unregistered and its lazy
registration fails, `handoff_to_agent` raises a `KeyError` at the
`agent_queues[to_agent.name]["routing_key"]` lookup (coreq.py line 251,
modelled by the `none` result) and publishes no handoff envelope (the
publication list is empty: the publish on line 258 is never reached). -/
theorem handoff_keyerror_on_failed_lazy_registration
    (b : Broker) (now : String) (st : SwarmState) (from_agent to_agent : Agent)
    (messages : List Msg) (ctx : List (String × JValue))
    (hunreg : lookupQ st.agent_queues to_agent.name = none)
    (hfail : (register_agent b now st to_agent).1 = false) :
    handoff_to_agent b now st from_agent to_agent messages ctx = ([], none) := by
  have hsnd := register_agent_fail_snd b now st to_agent hfail
  unfold handoff_to_agent
  simp [hunreg, hsnd]

/-- Witness for C10: a concrete handoff from agent A to the unregistered
agent B over the unreachable broker raises the modelled `KeyError` and
publishes nothing. -/
theorem handoff_keyerror_on_failed_lazy_registration_witness :
    handoff_to_agent bDown ("t0") st0 agA agB [] [] = ([], none) :=
  handoff_keyerror_on_failed_lazy_registration bDown ("t0") st0 agA agB [] []
    rfl (by decide)

/-- C6: refuted on the code — derivation is deterministic, but it is not
injective on distinct names: the distinct names "Agent A" and "agent a"
derive the same queue name and the same routing key, since the slug
lowercases and replaces spaces. -/
theorem queueName_collision_distinct_names :
    queueName ("Agent A") = queueName ("agent a") ∧
    routingKey ("Agent A") = routingKey ("agent a") ∧
    ("Agent A" : String) ≠ "agent a" :=
  ⟨rfl, rfl, by decide⟩

/-- C6 (amended): the derivation is deterministic, and two agents whose
names have distinct slugs (lowercased, spaces replaced by underscores)
derive distinct queue names and distinct routing keys — collisions occur
exactly between names with equal slugs. -/
theorem binding_injective_on_slug (n₁ n₂ : String) (h : slug n₁ ≠ slug n₂) :
    queueName n₁ ≠ queueName n₂ ∧ routingKey n₁ ≠ routingKey n₂ := by
  constructor
  · intro he
    apply h
    have hd := congrArg String.data he
    simp only [queueName, String.data_append] at hd
    exact String.ext (List.append_cancel_left (List.append_cancel_right hd))
  · intro he
    apply h
    have hd := congrArg String.data he
    simp only [routingKey, String.data_append] at hd
    exact String.ext (List.append_cancel_left hd)

/-- Witness for C6 (amended): "Agent A" and "Agent B" have distinct
slugs, hence distinct queue names and routing keys. -/
theorem binding_injective_on_slug_witness :
    queueName ("Agent A") ≠ queueName ("Agent B") ∧
    routingKey ("Agent A") ≠ routingKey ("Agent B") :=
  binding_injective_on_slug ("Agent A") ("Agent B") (by decide)

/-- C3: registration is idempotent — for a fresh agent over a working
connection (successful provisioning), the first `register_agent` call
returns `true`, the immediately following call returns `false` and
changes no registry state, and the binding recorded for the agent (queue
name, routing key, creation time) is the one of the first call after
both calls. -/
theorem register_agent_idempotent (b : Broker) (now now2 : String)
    (st : SwarmState) (a : Agent)
    (hb : b.connected = true)
    (hfresh : lookupQ st.agent_queues a.name = none)
    (hs : (setup_queue b (queueName a.name) (routingKey a.name)).isSome = true) :
    (register_agent b now st a).1 = true ∧
    (register_agent b now2 (register_agent b now st a).2 a).1 = false ∧
    (register_agent b now2 (register_agent b now st a).2 a).2 =
      (register_agent b now st a).2 ∧
    lookupQ (register_agent b now st a).2.agent_queues a.name =
      some ⟨queueName a.name, routingKey a.name, now⟩ := by
  have h1 := register_agent_success b now st a hb hfresh hs
  have h2 : lookupQ (regSucc st a now).agent_queues a.name =
      some ⟨queueName a.name, routingKey a.name, now⟩ :=
    lookupQ_append_self st.agent_queues a.name _ hfresh
  rw [h1]
  refine ⟨rfl, ?_, ?_, h2⟩ <;>
    · unfold register_agent
      simp [hb, h2]

/-- Witness for C3: registering agent A twice on a fresh registry over
the all-succeeding broker. -/
theorem register_agent_idempotent_witness :
    (register_agent bAllOk ("t0") st0 agA).1 = true ∧
    (register_agent bAllOk ("t1") (register_agent bAllOk ("t0") st0 agA).2 agA).1 = false ∧
    (register_agent bAllOk ("t1") (register_agent bAllOk ("t0") st0 agA).2 agA).2 =
      (register_agent bAllOk ("t0") st0 agA).2 ∧
    lookupQ (register_agent bAllOk ("t0") st0 agA).2.agent_queues agA.name =
      some ⟨queueName agA.name, routingKey agA.name, ("t0")⟩ :=
  register_agent_idempotent bAllOk ("t0") ("t1") st0 agA rfl rfl (by decide)

/-- C4: for every delivered body, `default_callback` acknowledges if and
only if deserialization succeeds and the supplied callback completes
without error, and every other outcome is a negative acknowledgement
with `requeue=True` (at-least-once delivery; the message is never
dropped with an un-requeued nack). -/
theorem default_callback_ack_iff_success (decode : String → Option JValue)
    (cb : JValue → Option Unit) (body : String) :
    (default_callback decode (some cb) body = Ack.ack ↔
      ∃ m, decode body = some m ∧ cb m = some ()) ∧
    (default_callback decode (some cb) body = Ack.ack ∨
      default_callback decode (some cb) body = Ack.nack true) := by
  unfold default_callback
  cases hd : decode body with
  | none => simp
  | some m =>
    cases hc : cb m with
    | none => simp [hc]
    | some u =>
      cases u
      simp [hc]

/-- C5: refuted on the code — under persistent connection failure the
retry loop of `start_consumer_for_agent` (test2.py lines 26-48) makes 3
consume attempts but sleeps only twice between them, 5 then 10 time
units; the claimed third wait of 15 units never occurs because after the
third failed attempt `retry_count < max_retries` is false and the loop
breaks without sleeping. -/
theorem consumer_waits_not_5_10_15 :
    start_consumer_for_agent (fun _ => true) = (3, [5, 10]) ∧
    (start_consumer_for_agent (fun _ => true)).2 ≠ [5, 10, 15] := by
  constructor <;> decide

/-- C5 (amended): on persistent connection-level failure the consumer
loop makes exactly 3 consume attempts with strictly increasing waits of
5 and 10 time units (`attempt * 5`) between consecutive attempts, and
after the third failed attempt it stops and returns control to its
caller without crashing (the function is total and every exception is
caught inside the loop). -/
theorem consumer_three_attempts_waits_5_10 (fails : Nat → Bool)
    (h : ∀ n, fails n = true) :
    start_consumer_for_agent fails = (3, [5, 10]) ∧ 5 < 10 := by
  refine ⟨?_, by decide⟩
  unfold start_consumer_for_agent
  simp [consumerGo, max_retries, h]

/-- Witness for C5 (amended): the loop where every consume attempt
fails. -/
theorem consumer_three_attempts_waits_5_10_witness :
    start_consumer_for_agent (fun _ => true) = (3, [5, 10]) ∧ 5 < 10 :=
  consumer_three_attempts_waits_5_10 (fun _ => true) (fun _ => rfl)

/-- C2: over a working broker, `run` registers the agent if it is
unregistered, publishes exactly one dispatch envelope (messages, context
variables, model override, stream, debug, max_turns, execute_tools) to
the routing key recorded for the agent — the agent's own derived routing
key when it was unregistered — and returns immediately the "queued"
acknowledgement whose `messages` field is the input message list
unchanged and whose final message is the constant
"Message queued for processing", never a computed result. -/
theorem run_publishes_once_and_returns_queued
    (b : Broker) (now : String) (st : SwarmState) (a : Agent)
    (messages : List Msg) (context_variables : Option (List (String × JValue)))
    (model_override : Option String) (stream debug : Bool)
    (max_turns : Option Nat) (execute_tools : Bool)
    (hb : b.connected = true)
    (hs : (setup_queue b (queueName a.name) (routingKey a.name)).isSome = true) :
    ∃ st' qi,
      run b now st a messages context_variables model_override stream debug
          max_turns execute_tools =
        ([publish_message qi.routing_key
            (runEnvelope messages (context_variables.getD []) model_override
              stream debug max_turns execute_tools)],
         some (st', ⟨a, messages, context_variables.getD [],
                     "Message queued for processing"⟩)) ∧
      lookupQ st'.agent_queues a.name = some qi ∧
      (lookupQ st.agent_queues a.name = none →
        qi = ⟨queueName a.name, routingKey a.name, now⟩) := by
  cases hl : lookupQ st.agent_queues a.name with
  | some qi =>
    refine ⟨st, qi, ?_, hl, by simp [hl]⟩
    unfold run
    simp [hl]
  | none =>
    have hreg := register_agent_success b now st a hb hl hs
    have h2 : lookupQ (regSucc st a now).agent_queues a.name =
        some ⟨queueName a.name, routingKey a.name, now⟩ :=
      lookupQ_append_self st.agent_queues a.name _ hl
    refine ⟨regSucc st a now, ⟨queueName a.name, routingKey a.name, now⟩,
            ?_, h2, fun _ => rfl⟩
    unfold run
    simp [hl, hreg, h2]

/-- Witness for C2: running agent A on a fresh registry over the
all-succeeding broker. -/
theorem run_publishes_once_and_returns_queued_witness :
    ∃ st' qi,
      run bAllOk ("t0") st0 agA [[("role", "user"), ("content", "hi")]]
          none none false false none true =
        ([publish_message qi.routing_key
            (runEnvelope [[("role", "user"), ("content", "hi")]] [] none
              false false none true)],
         some (st', ⟨agA, [[("role", "user"), ("content", "hi")]], [],
                     "Message queued for processing"⟩)) ∧
      lookupQ st'.agent_queues agA.name = some qi ∧
      (lookupQ st0.agent_queues agA.name = none →
        qi = ⟨queueName agA.name, routingKey agA.name, ("t0")⟩) :=
  run_publishes_once_and_returns_queued bAllOk ("t0") st0 agA
    [[("role", "user"), ("content", "hi")]] none none false false none true
    rfl (by decide)

/-- C7: `register_agents` attempts each agent independently and returns
exactly the agents whose registration newly succeeded, in order: a
failed registration leaves the state unchanged and the remaining agents
are processed as if it had not happened; a successful one contributes
itself followed by the result on the updated state. In particular, on
the concrete broker where provisioning fails exactly for agent B,
registering [A, B, C] on a fresh registry returns [A, C]. -/
theorem register_agents_independent :
    (∀ (b : Broker) (now : String) (st : SwarmState) (a : Agent) (rest : List Agent),
      (register_agent b now st a).1 = false →
      (register_agents b now st (a :: rest)).1 = (register_agents b now st rest).1) ∧
    (∀ (b : Broker) (now : String) (st : SwarmState) (a : Agent) (rest : List Agent),
      (register_agent b now st a).1 = true →
      (register_agents b now st (a :: rest)).1 =
        a :: (register_agents b now (register_agent b now st a).2 rest).1) ∧
    (register_agents bFailB ("t0") st0 [agA, agB, agC]).1 = [agA, agC] := by
  refine ⟨?_, ?_, by decide⟩
  · intro b now st a rest hfail
    have hsnd := register_agent_fail_snd b now st a hfail
    have heq : register_agent b now st a = (false, st) :=
      Prod.ext_iff.mpr ⟨hfail, hsnd⟩
    rcases hr : register_agents b now st rest with ⟨regs, st2⟩
    simp [register_agents, heq, hr]
  · intro b now st a rest hsucc
    rcases hra : register_agent b now st a with ⟨ok, st1⟩
    rw [hra] at hsucc
    simp only at hsucc
    subst hsucc
    rcases hr : register_agents b now st1 rest with ⟨regs, st2⟩
    simp [register_agents, hra, hr]

/-- Witness for C7: the failed registration of agent B does not change
the outcome for the agents after it. -/
theorem register_agents_independent_witness :
    (register_agents bFailB ("t0") st0 (agB :: [agC])).1 =
      (register_agents bFailB ("t0") st0 [agC]).1 :=
  register_agents_independent.1 bFailB ("t0") st0 agB [agC] (by decide)

/-- C9: refuted on the code — evaluated at the failing input, the
dispatch envelope built by `run` with the default run options
(`max_turns = float("inf")`, coreq.py line 273) and published by
`publish_message` serializes its `max_turns` field as the token
`Infinity`, which standard JSON parsers reject, so the published body is
not strict JSON. -/
theorem run_default_envelope_not_strict_json :
    noInf ((publish_message (routingKey ("Agent A"))
      (runEnvelope [[("role", "user"), ("content", "hi")]] [] none false false
        none true)).body) = false :=
  rfl

end Swarm
